import Mathlib

/-!
Verification of the FLISR core of the smart-grid-monitor repository.

The TypeScript source is embedded shallowly:
* JavaScript numbers are modelled as elements of a linear ordered field
  (instantiated at `ℚ` for executable witnesses and at `ℝ` where the code
  takes a square root); `Number.isFinite` is always true for such exact
  values, so the finiteness guards of the source are vacuous in the model.
* `BigInt` is modelled as `ℤ`.
* Thrown JavaScript `Error` objects are modelled as an explicit
  `Except JSError` result, where `JSError` keeps the `name` and `message`
  fields the source sets.
* The PostgreSQL store is modelled as an explicit record of table rows and
  the persist transaction as a function from the database to `Except`,
  committing on success and restoring the original database on failure,
  exactly as the source's BEGIN / COMMIT / ROLLBACK bracket does.
-/

deriving instance DecidableEq for Except

namespace SmartGrid

/-- A JavaScript runtime value that may be passed as a timestamp to
`toBigIntTimestamp` (source file `src/lib/flisr/calculations.ts`).
`jsNumber q` is a finite number with exact value `q`; `jsNonFinite`
stands for `NaN`, `Infinity` or `-Infinity`; `jsOther` is any value of a
type other than bigint, number or string. -/
inductive JSValue where
  | jsBigInt (z : ℤ)
  | jsNumber (q : ℚ)
  | jsNonFinite
  | jsString (s : String)
  | jsOther
  deriving DecidableEq, Repr

/-- A thrown JavaScript `Error`: its `name` (default `"Error"`, the source
overrides it to `"NotFoundError"` in one place) and its `message`. -/
structure JSError where
  name : String
  message : String
  deriving DecidableEq, Repr

/-- `new Error(msg)` with the default name. -/
def jsError (msg : String) : JSError :=
  { name := "Error", message := msg }

/-- `Math.trunc` on an exact rational value: truncation toward zero. -/
def jsTrunc (q : ℚ) : ℤ :=
  if 0 ≤ q then ⌊q⌋ else -⌊-q⌋

/-- One or more decimal digits (`\d+`). -/
def digitRun (l : List Char) : Bool :=
  !l.isEmpty && l.all (fun c => c.isDigit)

/-- `value.trim()`: drop whitespace from both ends of the character list. -/
def trimChars (l : List Char) : List Char :=
  ((l.dropWhile Char.isWhitespace).reverse.dropWhile Char.isWhitespace).reverse

/-- The test `/^-?\d+$/.test(value.trim())` of `toBigIntTimestamp`:
after trimming, an optional leading minus sign followed by one or more
decimal digits. -/
def isIntegerString (s : String) : Bool :=
  match trimChars s.data with
  | [] => false
  | c :: rest => if c = '-' then digitRun rest else digitRun (c :: rest)

/-- Value of a run of decimal digits. -/
def digitsToNat (l : List Char) : ℕ :=
  l.foldl (fun acc c => 10 * acc + (c.toNat - 48)) 0

/-- `BigInt(value.trim())` on a string accepted by `isIntegerString`. -/
def parseIntegerString (s : String) : ℤ :=
  match trimChars s.data with
  | '-' :: rest => -(digitsToNat rest : ℤ)
  | l => (digitsToNat l : ℤ)

/-- `toBigIntTimestamp` from `src/lib/flisr/calculations.ts`: converts a
runtime value to a `BigInt` nanosecond timestamp.  A finite number is
truncated with `Math.trunc`; a non-finite number, a string that is not an
optionally-minus-signed digit run after trimming, and any other type are
rejected. -/
def toBigIntTimestamp : JSValue → Except JSError ℤ
  | .jsBigInt z => .ok z
  | .jsNumber q => .ok (jsTrunc q)
  | .jsNonFinite => .error (jsError "Timestamp must be a finite number.")
  | .jsString s =>
      if isIntegerString s then .ok (parseIntegerString s)
      else .error (jsError ("Timestamp string \"" ++ s ++ "\" is not a valid integer."))
  | .jsOther => .error (jsError "Timestamp is not a supported type.")

/-- `Number.MAX_SAFE_INTEGER = 2^53 - 1`. -/
def maxSafeInteger : ℤ := 2 ^ 53 - 1

/-- The `PrecisionError` of the spec taxonomy: the message thrown by
`calculateTimeDeltaSeconds` when the delta leaves the double-safe range. -/
def precisionError : JSError :=
  jsError "Timestamp delta exceeds IEEE float precision limits."

/-- `calculateTimeDeltaSeconds` from `src/lib/flisr/calculations.ts`.
The subtraction is performed on `ℤ` (the model of `BigInt`), the guard
compares against `Number.MAX_SAFE_INTEGER`, and only the final ratio is
taken in the field `α` modelling JavaScript numbers. -/
def calculateTimeDeltaSeconds (α : Type) [Field α] (timestampA timestampB : JSValue) :
    Except JSError α := do
  let tsA ← toBigIntTimestamp timestampA
  let tsB ← toBigIntTimestamp timestampB
  let delta := tsA - tsB
  if delta > maxSafeInteger ∨ delta < -maxSafeInteger then
    .error precisionError
  else
    .ok ((delta : α) / 1000000000)

/-- `calculatePropagationSpeed` from `src/lib/flisr/calculations.ts`,
with the square-root function of the number model passed explicitly
(`Math.sqrt` becomes `Real.sqrt` at `α := ℝ`). -/
def calculatePropagationSpeed {α : Type} [LinearOrderedField α] (sqrt : α → α)
    (inductanceHKm capacitanceFKm : α) : Except JSError α :=
  if inductanceHKm ≤ 0 then
    .error (jsError "Inductance per km must be a positive finite number.")
  else if capacitanceFKm ≤ 0 then
    .error (jsError "Capacitance per km must be a positive finite number.")
  else
    let inductancePerMeter := inductanceHKm / 1000
    let capacitancePerMeter := capacitanceFKm / 1000
    let product := inductancePerMeter * capacitancePerMeter
    if product ≤ 0 then
      .error (jsError "Invalid LC product computed for propagation velocity.")
    else
      let propagationSpeed := 1 / sqrt product
      if propagationSpeed ≤ 0 then
        .error (jsError "Propagation speed calculation produced an invalid value.")
      else
        .ok propagationSpeed

/-- Result record of `calculateFaultDistance` (`FaultDistanceResult` in
`src/lib/flisr/calculations.ts`). -/
structure FaultDistanceResult (α : Type) where
  distanceFromStartMeters : α
  distanceFromEndMeters : α
  lineLengthMeters : α
  propagationSpeed : α
  timeDeltaSeconds : α
  clamped : Bool
  confidence : α
  deriving DecidableEq, Repr

/-- `Number(x.toFixed(2))`: round to two decimal places, ties away from
the smaller value, exactly as ECMAScript `toFixed` picks the larger
candidate on a tie. -/
def round2 {α : Type} [LinearOrderedField α] [FloorRing α] (x : α) : α :=
  (round (x * 100) : ℤ) / 100

/-- `calculateFaultDistance` from `src/lib/flisr/calculations.ts`:
double-ended travelling-wave distance with clamping to `[0, lengthMeters]`
and a confidence figure rounded to two decimals. -/
def calculateFaultDistance {α : Type} [LinearOrderedField α] [FloorRing α]
    (lengthKm propagationSpeed timeDeltaSeconds : α) :
    Except JSError (FaultDistanceResult α) :=
  if lengthKm ≤ 0 then
    .error (jsError "Line length must be a positive value in kilometres.")
  else if propagationSpeed ≤ 0 then
    .error (jsError "Propagation speed must be positive.")
  else
    let lengthMeters := lengthKm * 1000
    let rawDistance := (1 / 2) * (lengthMeters + propagationSpeed * timeDeltaSeconds)
    let clampPair : α × Bool :=
      if rawDistance < 0 then (0, true)
      else if rawDistance > lengthMeters then (lengthMeters, true)
      else (rawDistance, false)
    let clampedDistance := clampPair.1
    let clamped := clampPair.2
    let distanceFromEnd := lengthMeters - clampedDistance
    let confidence : α :=
      if clamped then max (4 / 10) (1 - |rawDistance - clampedDistance| / lengthMeters)
      else 1
    .ok
      { distanceFromStartMeters := clampedDistance
        distanceFromEndMeters := distanceFromEnd
        lineLengthMeters := lengthMeters
        propagationSpeed := propagationSpeed
        timeDeltaSeconds := timeDeltaSeconds
        clamped := clamped
        confidence := round2 confidence }

/-! ### Store model -/

/-- `connection_status` column values (`src/lib/flisr/types.ts`). -/
inductive ConnectionStatus where
  | ACTIVE
  | INACTIVE
  | CUT
  deriving DecidableEq, Repr

/-- Row of the `"ZoneAgent"` table, restricted to the columns the FLISR
service reads; the status union of `types.ts` is kept as its string. -/
structure ZoneAgentRow where
  zone_agent_id : String
  feeder_number : ℤ
  location_description : Option String
  status : String
  deriving DecidableEq, Repr

/-- Row of the `"EventLog"` table. -/
structure EventLogRow where
  event_id : ℤ
  event_type : String
  description : Option String
  timestamp : String
  resolved : Bool
  deriving DecidableEq, Repr

/-- Row of the `"FaultWaveform"` table. -/
structure FaultWaveformRow where
  event_id : ℤ
  grid_connection_id : String
  timestamp_a : JSValue
  timestamp_b : JSValue
  deriving DecidableEq, Repr

/-- Row of the `"GridConnection"` table (matching `ConnectionState` in
`src/lib/flisr/types.ts`). -/
structure GridConnectionRow (α : Type) where
  grid_connection_id : String
  from_zone_agent_id : String
  to_zone_agent_id : String
  connection_status : ConnectionStatus
  is_faulty : Bool
  length_km : α
  resistance_ohm_km : α
  inductance_h_km : α
  capacitance_f_km : α
  deriving DecidableEq, Repr

/-- The PostgreSQL store as seen by the FLISR service.  `nextEventId`
models the `event_id` sequence used by inserts. -/
structure Database (α : Type) where
  eventLog : List EventLogRow
  faultWaveforms : List FaultWaveformRow
  gridConnections : List (GridConnectionRow α)
  zoneAgents : List ZoneAgentRow
  nextEventId : ℤ
  deriving DecidableEq, Repr

/-- `FaultContext` from `src/lib/flisr/types.ts`. -/
structure FaultContext (α : Type) where
  eventId : ℤ
  eventDescription : Option String
  eventTimestamp : String
  gridConnectionId : String
  fromZoneId : String
  fromZoneName : Option String
  toZoneId : String
  toZoneName : Option String
  lengthKm : α
  inductanceHKm : α
  capacitanceFKm : α
  timestampA : JSValue
  timestampB : JSValue
  deriving DecidableEq, Repr

/-- Resolve a zone's display name: the `LEFT JOIN "ZoneAgent"` of the
context query, and the name lookup of the planner. -/
def zoneNameOf (zones : List ZoneAgentRow) (zoneId : String) : Option String :=
  (zones.find? (fun z => z.zone_agent_id == zoneId)).bind (fun z => z.location_description)

/-- Row set of the context query in `fetchFaultContext`
(`src/lib/flisr/service.ts`): `EventLog` rows with the requested
`event_id` and `event_type = 'FAULT'`, inner-joined to `FaultWaveform` on
`event_id` and to `GridConnection` on `grid_connection_id`, left-joined to
`ZoneAgent` twice for the endpoint names.  Note the `resolved` column is
not part of the `WHERE` clause. -/
def faultContextRows {α : Type} (db : Database α) (faultEventId : ℤ) :
    List (FaultContext α) :=
  (db.eventLog.filter
      (fun e => e.event_id == faultEventId && e.event_type == "FAULT")).flatMap (fun e =>
    (db.faultWaveforms.filter (fun fw => fw.event_id == e.event_id)).flatMap (fun fw =>
      (db.gridConnections.filter
          (fun gc => gc.grid_connection_id == fw.grid_connection_id)).map (fun gc =>
        { eventId := e.event_id
          eventDescription := e.description
          eventTimestamp := e.timestamp
          gridConnectionId := gc.grid_connection_id
          fromZoneId := gc.from_zone_agent_id
          fromZoneName := zoneNameOf db.zoneAgents gc.from_zone_agent_id
          toZoneId := gc.to_zone_agent_id
          toZoneName := zoneNameOf db.zoneAgents gc.to_zone_agent_id
          lengthKm := gc.length_km
          inductanceHKm := gc.inductance_h_km
          capacitanceFKm := gc.capacitance_f_km
          timestampA := fw.timestamp_a
          timestampB := fw.timestamp_b })))

/-- The error thrown by `fetchFaultContext` when the context query returns
no rows: `name` is set to `"NotFoundError"`. -/
def notFoundError (faultEventId : ℤ) : JSError :=
  { name := "NotFoundError"
    message := "Fault event " ++ toString faultEventId ++
      " not found or has no associated waveform." }

/-- `fetchFaultContext` from `src/lib/flisr/service.ts`: runs the context
query and takes the first returned row, or throws `NotFoundError` when no
row is returned. -/
def fetchFaultContext {α : Type} (db : Database α) (faultEventId : ℤ) :
    Except JSError (FaultContext α) :=
  match faultContextRows db faultEventId with
  | [] => .error (notFoundError faultEventId)
  | row :: _ => .ok row

/-- The HTTP status the catch-branch of `POST /api/flisr`
(`src/app/api/flisr/route.ts`) assigns to a thrown error: 404 exactly when
the error's `name` is `"NotFoundError"`, 500 otherwise. -/
def flisrErrorStatus (e : JSError) : ℕ :=
  if e.name = "NotFoundError" then 404 else 500

/-- `fetchNetworkState` from `src/lib/flisr/service.ts`: reads all zones
and all connections as plain snapshots (the row-to-state mapping is
field-for-field in this model). -/
def fetchNetworkState {α : Type} (db : Database α) :
    List ZoneAgentRow × List (GridConnectionRow α) :=
  (db.zoneAgents, db.gridConnections)

/-! ### Restoration planner -/

/-- `RestorationActionType` from `src/lib/flisr/types.ts`. -/
inductive RestorationActionType where
  | OPEN_SWITCH
  | CLOSE_SWITCH
  | ISOLATE_SECTION
  | NOTIFY
  deriving DecidableEq, Repr

/-- `RestorationAction` from `src/lib/flisr/types.ts`; the optional
`metadata` record is modelled as an association list. -/
structure RestorationAction where
  action : RestorationActionType
  target_connection_id : String
  reason : String
  metadata : Option (List (String × String))
  deriving DecidableEq, Repr

/-- `RestorationPlan` from `src/lib/flisr/types.ts` (the optional
`estimatedNewLoss` field is never produced by the planner of the spec and
is omitted). -/
structure RestorationPlan where
  actions : List RestorationAction
  rationale : List String
  deriving DecidableEq, Repr

/-- Modelled from the spec: the tie-candidate predicate of §4.2 of the
specification (the planner source `src/lib/flisr/planner.ts` is not
included under `src/`).  A candidate is any connection other than the
faulted one that is `INACTIVE`, not faulty, and shares at least one
endpoint zone with the faulted connection. -/
def isTieCandidate {α : Type} (ctx : FaultContext α) (c : GridConnectionRow α) : Bool :=
  c.grid_connection_id != ctx.gridConnectionId &&
  c.connection_status == .INACTIVE &&
  c.is_faulty == false &&
  (c.from_zone_agent_id == ctx.fromZoneId || c.from_zone_agent_id == ctx.toZoneId ||
   c.to_zone_agent_id == ctx.fromZoneId || c.to_zone_agent_id == ctx.toZoneId)

/-- Modelled from the spec: `deriveRestorationPlan`
(`src/lib/flisr/planner.ts`, imported by the service but not included
under `src/`), following §4.2 of the specification: always isolate the
faulted connection first; then either close the first tie candidate in
the store's order, or notify the operator with an escalation flag when no
candidate exists. -/
def deriveRestorationPlan {α : Type} (ctx : FaultContext α) (zones : List ZoneAgentRow)
    (connections : List (GridConnectionRow α)) : RestorationPlan :=
  let isolate : RestorationAction :=
    { action := .OPEN_SWITCH
      target_connection_id := ctx.gridConnectionId
      reason := "isolate the faulted segment"
      metadata := some [("faultEventId", toString ctx.eventId),
        ("fromZoneId", ctx.fromZoneId), ("toZoneId", ctx.toZoneId)] }
  let faultLine := "Fault on connection " ++ ctx.gridConnectionId ++ " between zones " ++
    ctx.fromZoneId ++ " and " ++ ctx.toZoneId ++ "."
  match connections.find? (isTieCandidate ctx) with
  | some tie =>
      let close : RestorationAction :=
        { action := .CLOSE_SWITCH
          target_connection_id := tie.grid_connection_id
          reason := "backfeed through alternate healthy path"
          metadata := some
            [("fromZoneName",
                (zoneNameOf zones tie.from_zone_agent_id).getD tie.from_zone_agent_id),
             ("toZoneName",
                (zoneNameOf zones tie.to_zone_agent_id).getD tie.to_zone_agent_id)] }
      { actions := [isolate, close]
        rationale := [faultLine,
          "Selected tie connection " ++ tie.grid_connection_id ++
            " (previously INACTIVE) to backfeed the healthy zones."] }
  | none =>
      let notify : RestorationAction :=
        { action := .NOTIFY
          target_connection_id := ctx.gridConnectionId
          reason := "no automated restoration path available"
          metadata := some [("escalation", "dispatch crew")] }
      { actions := [isolate, notify]
        rationale := [faultLine,
          "No automated restoration path exists; escalating to the operator."] }

/-! ### Persist phase and workflow -/

/-- Payload of `publishSwitchCommand` (`src/lib/mqtt/client.ts`). -/
structure SwitchCommand where
  gridConnectionId : String
  command : String
  timestamp : String
  source : String
  reason : String
  deriving DecidableEq, Repr

/-- Failure-injection environment for the persist phase: `nowIso` is the
`new Date().toISOString()` taken at entry, `queryOk n` tells whether the
`n`-th data-modifying SQL statement of the transaction succeeds, and
`publishOk n` whether the `n`-th MQTT publish succeeds. -/
structure PersistEnv where
  nowIso : String
  queryOk : ℕ → Bool
  publishOk : ℕ → Bool

/-- The `UPDATE "GridConnection" SET connection_status = …, is_faulty = …
WHERE grid_connection_id = …` statement. -/
def updateConnectionStatus {α : Type} (db : Database α) (connectionId : String)
    (status : ConnectionStatus) (faulty : Bool) : Database α :=
  { db with gridConnections := db.gridConnections.map (fun c =>
      if c.grid_connection_id = connectionId then
        { c with connection_status := status, is_faulty := faulty }
      else c) }

/-- The `INSERT INTO "EventLog" (event_type, description, resolved)`
statement; the row id comes from the store's sequence. -/
def insertEventLog {α : Type} (db : Database α) (eventType description : String)
    (resolved : Bool) (ts : String) : Database α :=
  { db with
    eventLog := db.eventLog ++
      [{ event_id := db.nextEventId, event_type := eventType,
         description := some description, timestamp := ts, resolved := resolved }]
    nextEventId := db.nextEventId + 1 }

/-- The `UPDATE "EventLog" SET resolved = TRUE WHERE event_id = …`
statement. -/
def markEventResolved {α : Type} (db : Database α) (eventId : ℤ) : Database α :=
  { db with eventLog := db.eventLog.map (fun e =>
      if e.event_id = eventId then { e with resolved := true } else e) }

/-- One data-modifying SQL statement inside the persist transaction: the
`n`-th statement applies `f` to the draft database or throws. -/
def execQuery {α : Type} (env : PersistEnv) (n : ℕ) (f : Database α → Database α)
    (db : Database α) : Except JSError (Database α) :=
  if env.queryOk n then .ok (f db) else .error (jsError "query failed")

/-- `publishSwitchCommand`: fire-and-forget, but a failure throws
synchronously into the enclosing transaction. -/
def tryPublish (env : PersistEnv) (n : ℕ) : Except JSError Unit :=
  if env.publishOk n then .ok () else .error (jsError "publish failed")

/-- `x.toFixed(1)` for a nonnegative exact value: one decimal digit,
ties rounded up. -/
def formatFixed1 {α : Type} [LinearOrderedField α] [FloorRing α] (x : α) : String :=
  let n : ℤ := round (x * 10)
  toString (n / 10) ++ "." ++ toString (n % 10).natAbs

/-- The string of a `RestorationActionType` as interpolated by the
source's template literals. -/
def actionTypeName : RestorationActionType → String
  | .OPEN_SWITCH => "OPEN_SWITCH"
  | .CLOSE_SWITCH => "CLOSE_SWITCH"
  | .ISOLATE_SECTION => "ISOLATE_SECTION"
  | .NOTIFY => "NOTIFY"

/-- `JSON.stringify` of the metadata record, modelled on the association
list. -/
def renderMetadata (entries : List (String × String)) : String :=
  "\x7b" ++ String.intercalate ","
    (entries.map (fun kv => "\"" ++ kv.1 ++ "\":\"" ++ kv.2 ++ "\"")) ++ "\x7d"

/-- The per-action `description` assembled in `persistOutcome`:
`FLISR Action: … | Target: … | Reason: …` with the metadata block present
exactly when the action carries metadata. -/
def actionDescription (a : RestorationAction) : String :=
  "FLISR Action: " ++ actionTypeName a.action ++
    " | Target: " ++ a.target_connection_id ++
    " | Reason: " ++ a.reason ++
    (match a.metadata with
     | some m => " | Metadata: " ++ renderMetadata m
     | none => "")

/-- The `FAULT_ANALYSIS` summary line of `persistOutcome`. -/
def analysisSummary {α : Type} [LinearOrderedField α] [FloorRing α]
    (ctx : FaultContext α) (dist : FaultDistanceResult α) : String :=
  "Fault located ~" ++ formatFixed1 dist.distanceFromStartMeters ++
    " m from source (" ++ (ctx.fromZoneName.getD ctx.fromZoneId) ++ ")."

/-- The `for (const action of plan.actions)` loop of `persistOutcome`:
for a `CLOSE_SWITCH` action, update the connection to `ACTIVE`/not-faulty
and publish the close command; for every action, insert one
`SERVICE_RESTORATION` event-log row.  `qn` and `pn` number the SQL
statements and publishes; the returned list records the commands actually
published (also on failure, since MQTT messages cannot be rolled back). -/
def persistActionsLoop {α : Type} (env : PersistEnv) (acts : List RestorationAction)
    (qn pn : ℕ) (db : Database α) :
    Except (JSError × List SwitchCommand) (Database α × ℕ × ℕ × List SwitchCommand) :=
  match acts with
  | [] => .ok (db, qn, pn, [])
  | a :: rest =>
    if a.action = .CLOSE_SWITCH then
      match execQuery env qn
          (fun d => updateConnectionStatus d a.target_connection_id .ACTIVE false) db with
      | .error e => .error (e, [])
      | .ok db1 =>
        match tryPublish env pn with
        | .error e => .error (e, [])
        | .ok _ =>
          let closeCmd : SwitchCommand :=
            { gridConnectionId := a.target_connection_id, command := "CLOSE",
              timestamp := env.nowIso, source := "FLISR", reason := a.reason }
          match execQuery env (qn + 1)
              (fun d => insertEventLog d "SERVICE_RESTORATION" (actionDescription a)
                true env.nowIso) db1 with
          | .error e => .error (e, [closeCmd])
          | .ok db2 =>
            match persistActionsLoop env rest (qn + 2) (pn + 1) db2 with
            | .error (e, cmds) => .error (e, closeCmd :: cmds)
            | .ok (db3, qn3, pn3, cmds) => .ok (db3, qn3, pn3, closeCmd :: cmds)
    else
      match execQuery env qn
          (fun d => insertEventLog d "SERVICE_RESTORATION" (actionDescription a)
            true env.nowIso) db with
      | .error e => .error (e, [])
      | .ok db1 =>
        match persistActionsLoop env rest (qn + 1) pn db1 with
        | .error (e, cmds) => .error (e, cmds)
        | .ok (db2, qn2, pn2, cmds) => .ok (db2, qn2, pn2, cmds)

/-- `persistOutcome` from `src/lib/flisr/service.ts`: inside a
BEGIN/COMMIT bracket, mark the faulted connection `CUT`, publish the open
command, process the plan's actions, insert the `FAULT_ANALYSIS` entry,
and mark the fault event resolved; on any error the transaction is rolled
back, so the returned database is the original one and the error is
rethrown, while already-published MQTT commands stay published. -/
def persistOutcome {α : Type} [LinearOrderedField α] [FloorRing α] (env : PersistEnv)
    (db : Database α) (ctx : FaultContext α) (plan : RestorationPlan)
    (dist : FaultDistanceResult α) :
    Except JSError Unit × Database α × List SwitchCommand :=
  let body : Except (JSError × List SwitchCommand) (Database α × List SwitchCommand) :=
    match execQuery env 0
        (fun d => updateConnectionStatus d ctx.gridConnectionId .CUT true) db with
    | .error e => .error (e, [])
    | .ok db1 =>
      match tryPublish env 0 with
      | .error e => .error (e, [])
      | .ok _ =>
        let openCmd : SwitchCommand :=
          { gridConnectionId := ctx.gridConnectionId, command := "OPEN",
            timestamp := env.nowIso, source := "FLISR",
            reason := "Isolate detected faulted feeder segment" }
        match persistActionsLoop env plan.actions 1 1 db1 with
        | .error (e, cmds) => .error (e, openCmd :: cmds)
        | .ok (db2, qn, _, cmds) =>
          match execQuery env qn
              (fun d => insertEventLog d "FAULT_ANALYSIS" (analysisSummary ctx dist)
                true env.nowIso) db2 with
          | .error e => .error (e, openCmd :: cmds)
          | .ok db3 =>
            match execQuery env (qn + 1) (fun d => markEventResolved d ctx.eventId) db3 with
            | .error e => .error (e, openCmd :: cmds)
            | .ok db4 => .ok (db4, openCmd :: cmds)
  match body with
  | .ok (db4, cmds) => (.ok (), db4, cmds)
  | .error (e, cmds) => (.error e, db, cmds)

/-- The three estimator calls of `runFlisrWorkflow`, in source order:
time delta, propagation speed, fault distance.  Each error propagates
unwrapped. -/
def computeDistancePhase {α : Type} [LinearOrderedField α] [FloorRing α]
    (sqrt : α → α) (ctx : FaultContext α) : Except JSError (FaultDistanceResult α) := do
  let timeDeltaSeconds ← calculateTimeDeltaSeconds α ctx.timestampA ctx.timestampB
  let propagationSpeed ← calculatePropagationSpeed sqrt ctx.inductanceHKm ctx.capacitanceFKm
  calculateFaultDistance ctx.lengthKm propagationSpeed timeDeltaSeconds

/-- The record returned by `runFlisrWorkflow` to the route handler. -/
structure WorkflowResult (α : Type) where
  faultContext : FaultContext α
  distanceResult : FaultDistanceResult α
  restorationPlan : RestorationPlan
  deriving DecidableEq, Repr

/-- `runFlisrWorkflow` from `src/lib/flisr/service.ts`: load context,
compute the distance, load the topology snapshot, plan, persist.  The
second component of the result is the database after the call and the
third the list of MQTT commands published during it. -/
def runFlisrWorkflow {α : Type} [LinearOrderedField α] [FloorRing α] (sqrt : α → α)
    (env : PersistEnv) (db : Database α) (faultEventId : ℤ) :
    Except JSError (WorkflowResult α) × Database α × List SwitchCommand :=
  match fetchFaultContext db faultEventId with
  | .error e => (.error e, db, [])
  | .ok faultContext =>
    match computeDistancePhase sqrt faultContext with
    | .error e => (.error e, db, [])
    | .ok distanceResult =>
      let state := fetchNetworkState db
      let restorationPlan := deriveRestorationPlan faultContext state.1 state.2
      match persistOutcome env db faultContext restorationPlan distanceResult with
      | (.ok _, db2, cmds) =>
        (.ok { faultContext := faultContext, distanceResult := distanceResult,
               restorationPlan := restorationPlan }, db2, cmds)
      | (.error e, db2, cmds) => (.error e, db2, cmds)

/-- Stored status and faulted flag of a connection, for stating the
atomicity claims. -/
def connectionStateOf {α : Type} (db : Database α) (connectionId : String) :
    Option (ConnectionStatus × Bool) :=
  (db.gridConnections.find? (fun c => c.grid_connection_id == connectionId)).map
    (fun c => (c.connection_status, c.is_faulty))

/-- Stored `resolved` flag of an event-log row. -/
def eventResolvedFlag {α : Type} (db : Database α) (eventId : ℤ) : Option Bool :=
  (db.eventLog.find? (fun e => e.event_id == eventId)).map (fun e => e.resolved)

/-! ### Concrete instances used by counterexamples and witnesses -/

/-- Zone rows `Z1`..`Z5` of the sample topology. -/
def z1 : ZoneAgentRow :=
  { zone_agent_id := "Z1", feeder_number := 1,
    location_description := some "North feeder", status := "NORMAL" }

/-- See `z1`. -/
def z2 : ZoneAgentRow :=
  { zone_agent_id := "Z2", feeder_number := 2,
    location_description := some "South feeder", status := "FAULT" }

/-- See `z1`. -/
def z3 : ZoneAgentRow :=
  { zone_agent_id := "Z3", feeder_number := 3,
    location_description := some "Tie point", status := "NORMAL" }

/-- See `z1`; `Z4` and `Z5` carry no display name. -/
def z4 : ZoneAgentRow :=
  { zone_agent_id := "Z4", feeder_number := 4,
    location_description := none, status := "NORMAL" }

/-- See `z4`. -/
def z5 : ZoneAgentRow :=
  { zone_agent_id := "Z5", feeder_number := 5,
    location_description := none, status := "NORMAL" }

/-- The faulted connection `C1` between `Z1` and `Z2`. -/
def c1row : GridConnectionRow ℚ :=
  { grid_connection_id := "C1", from_zone_agent_id := "Z1",
    to_zone_agent_id := "Z2", connection_status := .ACTIVE, is_faulty := false,
    length_km := 10, resistance_ohm_km := 1, inductance_h_km := 1,
    capacitance_f_km := 1 }

/-- The adjacent INACTIVE healthy tie `C2` between `Z2` and `Z3`. -/
def c2row : GridConnectionRow ℚ :=
  { grid_connection_id := "C2", from_zone_agent_id := "Z2",
    to_zone_agent_id := "Z3", connection_status := .INACTIVE, is_faulty := false,
    length_km := 5, resistance_ohm_km := 1, inductance_h_km := 1,
    capacitance_f_km := 1 }

/-- The non-adjacent INACTIVE connection `C3` between `Z4` and `Z5`. -/
def c3row : GridConnectionRow ℚ :=
  { grid_connection_id := "C3", from_zone_agent_id := "Z4",
    to_zone_agent_id := "Z5", connection_status := .INACTIVE, is_faulty := false,
    length_km := 5, resistance_ohm_km := 1, inductance_h_km := 1,
    capacitance_f_km := 1 }

/-- The fault event row for event 1, unresolved. -/
def faultEventRow : EventLogRow :=
  { event_id := 1, event_type := "FAULT",
    description := some "overcurrent detected", timestamp := "t0", resolved := false }

/-- The waveform row attaching event 1 to connection `C1`. -/
def waveformRow : FaultWaveformRow :=
  { event_id := 1, grid_connection_id := "C1",
    timestamp_a := .jsBigInt 1000, timestamp_b := .jsBigInt 0 }

/-- A store with an unresolved fault on `C1` (zones `Z1`-`Z2`), an
adjacent INACTIVE healthy tie `C2` (zones `Z2`-`Z3`) and a non-adjacent
INACTIVE connection `C3` (zones `Z4`-`Z5`). -/
def sampleDb : Database ℚ :=
  { eventLog := [faultEventRow],
    faultWaveforms := [waveformRow],
    gridConnections := [c1row, c2row, c3row],
    zoneAgents := [z1, z2, z3, z4, z5],
    nextEventId := 2 }

/-- `sampleDb` with its only fault event already marked resolved: the
event still has a waveform and a connection attached. -/
def resolvedFaultDb : Database ℚ :=
  { sampleDb with eventLog := [{ faultEventRow with resolved := true }] }

/-- The fault context of `sampleDb`'s event 1 on connection `C1`. -/
def sampleCtx : FaultContext ℚ :=
  { eventId := 1, eventDescription := some "overcurrent detected",
    eventTimestamp := "t0", gridConnectionId := "C1",
    fromZoneId := "Z1", fromZoneName := some "North feeder",
    toZoneId := "Z2", toZoneName := some "South feeder",
    lengthKm := 10, inductanceHKm := 1, capacitanceFKm := 1,
    timestampA := .jsBigInt 1000, timestampB := .jsBigInt 0 }

/-- A fault context on `C3`, whose endpoints `Z4`/`Z5` touch no other
connection of `sampleDb`: no tie candidate exists for it. -/
def noTieCtx : FaultContext ℚ :=
  { sampleCtx with
    gridConnectionId := "C3", fromZoneId := "Z4", toZoneId := "Z5",
    fromZoneName := none, toZoneName := none }

/-- A distance result with integral fields, used where the persist phase
needs one. -/
def sampleDist : FaultDistanceResult ℚ :=
  { distanceFromStartMeters := 5500, distanceFromEndMeters := 4500,
    lineLengthMeters := 10000, propagationSpeed := 300000,
    timeDeltaSeconds := 0, clamped := false, confidence := 1 }

/-- The plan the modelled planner derives for `sampleCtx` on `sampleDb`'s
topology: isolate `C1`, close `C2`. -/
def samplePlan : RestorationPlan :=
  deriveRestorationPlan sampleCtx sampleDb.zoneAgents sampleDb.gridConnections

/-- An environment whose store always succeeds but whose command channel
always fails: the very first publish aborts the transaction. -/
def failingPublishEnv : PersistEnv :=
  { nowIso := "2024-01-01T00:00:00.000Z",
    queryOk := fun _ => true,
    publishOk := fun _ => false }

/-- `sampleDb` with the faulted connection's inductance set to zero, so
the estimator rejects it. -/
def zeroInductanceDb : Database ℚ :=
  { sampleDb with gridConnections := [{ c1row with inductance_h_km := 0 }, c2row, c3row] }

/-- The context loaded from `zeroInductanceDb` for event 1. -/
def zeroInductanceCtx : FaultContext ℚ :=
  { sampleCtx with inductanceHKm := 0 }

/-! ### Theorems about the estimator -/

/-- On two `BigInt` timestamps the monadic body of
`calculateTimeDeltaSeconds` reduces to its guard and ratio. -/
theorem calculateTimeDeltaSeconds_bigint (α : Type) [Field α] (a b : ℤ) :
    calculateTimeDeltaSeconds α (.jsBigInt a) (.jsBigInt b) =
      if a - b > maxSafeInteger ∨ a - b < -maxSafeInteger then .error precisionError
      else .ok (((a - b : ℤ) : α) / 1000000000) := rfl

/-- C6: `calculateTimeDeltaSeconds` subtracts the two timestamps exactly on
`ℤ` (the `BigInt` model) before any conversion to the number field, fails
with the precision error exactly when the absolute delta exceeds
`Number.MAX_SAFE_INTEGER = 2^53 - 1`, and otherwise returns the exact
delta divided by `10^9`. -/
theorem calculateTimeDeltaSeconds_precision (a b : ℤ) :
    calculateTimeDeltaSeconds ℚ (.jsBigInt a) (.jsBigInt b) =
      if |a - b| ≤ maxSafeInteger then .ok ((a - b : ℚ) / 1000000000)
      else .error precisionError := by
  have hcond : (a - b > maxSafeInteger ∨ a - b < -maxSafeInteger) ↔
      ¬ |a - b| ≤ maxSafeInteger := by
    rw [abs_le]; omega
  rw [calculateTimeDeltaSeconds_bigint]
  by_cases h : |a - b| ≤ maxSafeInteger
  · rw [if_neg (by rw [hcond]; exact not_not_intro h), if_pos h]
    congr 1
    push_cast
    ring
  · rw [if_pos (hcond.mpr h), if_neg h]

/-- C10: a finite non-integer number passed as a timestamp is not rejected
by `toBigIntTimestamp` but truncated toward zero (floor for nonnegative
values, negated floor of the negation for negative values); a non-finite
number, a string that does not trim to an optionally-minus-signed digit
run, and a value of any other type each produce an error. -/
theorem toBigIntTimestamp_truncates :
    (∀ q : ℚ, toBigIntTimestamp (.jsNumber q) = .ok (jsTrunc q)) ∧
    (∀ q : ℚ, 0 ≤ q → jsTrunc q = ⌊q⌋) ∧
    (∀ q : ℚ, q < 0 → jsTrunc q = -⌊-q⌋) ∧
    toBigIntTimestamp .jsNonFinite =
      .error (jsError "Timestamp must be a finite number.") ∧
    (∀ s : String, isIntegerString s = false →
      toBigIntTimestamp (.jsString s) =
        .error (jsError ("Timestamp string \"" ++ s ++ "\" is not a valid integer."))) ∧
    toBigIntTimestamp .jsOther =
      .error (jsError "Timestamp is not a supported type.") := by
  refine ⟨fun q => rfl, fun q hq => if_pos hq, fun q hq => if_neg (not_le.mpr hq),
    rfl, fun s hs => ?_, rfl⟩
  simp only [toBigIntTimestamp, hs, Bool.false_eq_true, if_false]

/-- Witness for C10 at concrete inputs: `1.9` truncates to `1`, `-2.5`
truncates to `-2`, and the non-integer string `"12.5"` is rejected. -/
theorem toBigIntTimestamp_truncates_witness :
    toBigIntTimestamp (.jsNumber (19 / 10 : ℚ)) = .ok 1 ∧
    toBigIntTimestamp (.jsNumber (-(5 / 2) : ℚ)) = .ok (-2) ∧
    toBigIntTimestamp (.jsString "12.5") =
      .error (jsError ("Timestamp string \"" ++ "12.5" ++ "\" is not a valid integer.")) := by
  refine ⟨?_, ?_, toBigIntTimestamp_truncates.2.2.2.2.1 "12.5" (by decide)⟩
  · rw [toBigIntTimestamp_truncates.1 (19 / 10 : ℚ),
      toBigIntTimestamp_truncates.2.1 _ (by norm_num)]
    norm_num
  · rw [toBigIntTimestamp_truncates.1 (-(5 / 2) : ℚ),
      toBigIntTimestamp_truncates.2.2.1 _ (by norm_num)]
    norm_num

/-- C4: for every valid input, the returned distance from the start lies in
`[0, lineLengthMeters]`, the two distances sum exactly to the line length,
and the line length is `lengthKm * 1000`. -/
theorem calculateFaultDistance_clamp_invariant {α : Type} [LinearOrderedField α]
    [FloorRing α] (lengthKm v t : α) (r : FaultDistanceResult α)
    (h : calculateFaultDistance lengthKm v t = .ok r) :
    0 ≤ r.distanceFromStartMeters ∧
    r.distanceFromStartMeters ≤ r.lineLengthMeters ∧
    r.distanceFromStartMeters + r.distanceFromEndMeters = r.lineLengthMeters ∧
    r.lineLengthMeters = lengthKm * 1000 := by
  unfold calculateFaultDistance at h
  split at h
  · cases h
  split at h
  · cases h
  rename_i hL hv
  have hLpos : 0 < lengthKm * 1000 := by
    have := lt_of_not_le hL
    positivity
  dsimp only at h
  split at h
  · cases h
    exact ⟨le_refl _, le_of_lt hLpos, by ring, rfl⟩
  split at h
  · cases h
    exact ⟨le_of_lt hLpos, le_refl _, by ring, rfl⟩
  rename_i h0 h1
  cases h
  exact ⟨not_lt.mp h0, not_lt.mp h1, by ring, rfl⟩

/-- Witness for C4 at the concrete input `lengthKm = 10`, `v = 10^6 m/s`,
`Δt = 10^-3 s`: the result is 5500 m from the start, 4500 m from the end,
on a 10000 m line. -/
theorem calculateFaultDistance_clamp_invariant_witness :
    0 ≤ (5500 : ℚ) ∧ (5500 : ℚ) ≤ 10000 ∧ (5500 : ℚ) + 4500 = 10000 ∧
      (10000 : ℚ) = 10 * 1000 := by
  have h : calculateFaultDistance (10 : ℚ) 1000000 (1 / 1000) =
      .ok { distanceFromStartMeters := 5500, distanceFromEndMeters := 4500,
            lineLengthMeters := 10000, propagationSpeed := 1000000,
            timeDeltaSeconds := 1 / 1000, clamped := false, confidence := 1 } := by
    unfold calculateFaultDistance
    rw [if_neg (by norm_num), if_neg (by norm_num)]
    dsimp only
    rw [if_neg (by norm_num), if_neg (by norm_num)]
    simp only [Except.ok.injEq, FaultDistanceResult.mk.injEq]
    norm_num [round2, round_eq]
  simpa using calculateFaultDistance_clamp_invariant 10 1000000 (1 / 1000) _ h

/-- `Number((1).toFixed(2)) = 1`. -/
theorem round2_one {α : Type} [LinearOrderedField α] [FloorRing α] :
    round2 (1 : α) = 1 := by
  unfold round2
  rw [one_mul, show (100 : α) = ((100 : ℤ) : α) by norm_cast, round_intCast]
  norm_num

/-- Rounding to two decimals keeps a value of `[0.4, 1]` inside `[0.4, 1]`. -/
theorem round2_bounds {α : Type} [LinearOrderedField α] [FloorRing α]
    (y : α) (h1 : 4 / 10 ≤ y) (h2 : y ≤ 1) :
    4 / 10 ≤ round2 y ∧ round2 y ≤ 1 := by
  have hlo : (40 : ℤ) ≤ round (y * 100) := by
    rw [round_eq, Int.le_floor]
    push_cast
    linarith
  have hhi : round (y * 100) ≤ 100 := by
    rw [round_eq, Int.floor_le_iff]
    push_cast
    linarith
  constructor
  · rw [round2, le_div_iff₀ (by norm_num : (0 : α) < 100)]
    calc (4 / 10 : α) * 100 = ((40 : ℤ) : α) := by norm_num
    _ ≤ _ := by exact_mod_cast hlo
  · rw [round2, div_le_iff₀ (by norm_num : (0 : α) < 100)]
    calc ((round (y * 100) : ℤ) : α) ≤ ((100 : ℤ) : α) := by exact_mod_cast hhi
    _ = 1 * 100 := by norm_num

/-- Counterexample to C3 as stated: at `lengthKm = 1`, `v = 2 m/s`,
`Δt = 504 s` the raw distance `1004 m` overshoots the `1000 m` line by only
`0.4 %`, so the confidence `0.996` rounds to two decimals as `1` while
`clamped = true`; hence `confidence = 1` does not imply `clamped = false`. -/
theorem confidence_one_with_clamped_true :
    calculateFaultDistance (1 : ℚ) 2 504 =
      .ok { distanceFromStartMeters := 1000, distanceFromEndMeters := 0,
            lineLengthMeters := 1000, propagationSpeed := 2,
            timeDeltaSeconds := 504, clamped := true, confidence := 1 } := by
  unfold calculateFaultDistance
  rw [if_neg (by norm_num), if_neg (by norm_num)]
  dsimp only
  rw [if_neg (by norm_num), if_pos (by norm_num)]
  simp only [Except.ok.injEq, FaultDistanceResult.mk.injEq]
  norm_num [round2, round_eq, max_def]

/-- C3 (amended): an unclamped result has confidence exactly `1`; a clamped
result has confidence `max(0.4, 1 − |d_raw − d_clamped| / lengthMeters)`
rounded to two decimals, which lies in `[0.4, 1]` — the two-decimal rounding
can reach `1`, so `confidence = 1` holds whenever `clamped = false` but the
converse fails (see the counterexample). -/
theorem confidence_bound_amended {α : Type} [LinearOrderedField α] [FloorRing α]
    (lengthKm v t : α) (r : FaultDistanceResult α)
    (h : calculateFaultDistance lengthKm v t = .ok r) :
    (r.clamped = false → r.confidence = 1) ∧
    (r.clamped = true →
      r.confidence = round2 (max (4 / 10)
        (1 - |(1 / 2) * (lengthKm * 1000 + v * t) - r.distanceFromStartMeters| /
          (lengthKm * 1000))) ∧
      4 / 10 ≤ r.confidence ∧ r.confidence ≤ 1) := by
  unfold calculateFaultDistance at h
  split at h
  · cases h
  split at h
  · cases h
  rename_i hL hv
  have hLpos : 0 < lengthKm * 1000 := by
    have := lt_of_not_le hL
    positivity
  have hbounds : ∀ cd : α, 4 / 10 ≤ round2 (max (4 / 10)
      (1 - |(1 / 2) * (lengthKm * 1000 + v * t) - cd| / (lengthKm * 1000))) ∧
      round2 (max (4 / 10)
        (1 - |(1 / 2) * (lengthKm * 1000 + v * t) - cd| / (lengthKm * 1000))) ≤ 1 := by
    intro cd
    apply round2_bounds
    · exact le_max_left _ _
    · apply max_le (by norm_num)
      have : 0 ≤ |(1 / 2) * (lengthKm * 1000 + v * t) - cd| / (lengthKm * 1000) :=
        div_nonneg (abs_nonneg _) (le_of_lt hLpos)
      linarith
  dsimp only at h
  split at h
  · cases h
    constructor
    · intro hc
      cases hc
    · intro hcl
      refine ⟨?_, (hbounds 0).1, (hbounds 0).2⟩
      rfl
  split at h
  · cases h
    constructor
    · intro hc
      cases hc
    · intro hcl
      refine ⟨?_, (hbounds (lengthKm * 1000)).1, (hbounds (lengthKm * 1000)).2⟩
      rfl
  cases h
  exact ⟨fun _ => round2_one, fun hc => by cases hc⟩

/-- Witness for C3 (amended) at `lengthKm = 1`, `v = 2`, `Δt = 1500`: the
raw distance `2000 m` is clamped to `1000 m` and the confidence is exactly
`0.4`. -/
theorem confidence_bound_amended_witness :
    (2 / 5 : ℚ) = round2 (max (4 / 10)
      (1 - |(1 / 2) * (1 * 1000 + 2 * 1500) - (1000 : ℚ)| / (1 * 1000))) ∧
    (4 / 10 : ℚ) ≤ 2 / 5 ∧ (2 / 5 : ℚ) ≤ 1 := by
  have h : calculateFaultDistance (1 : ℚ) 2 1500 =
      .ok { distanceFromStartMeters := 1000, distanceFromEndMeters := 0,
            lineLengthMeters := 1000, propagationSpeed := 2,
            timeDeltaSeconds := 1500, clamped := true, confidence := 2 / 5 } := by
    unfold calculateFaultDistance
    rw [if_neg (by norm_num), if_neg (by norm_num)]
    dsimp only
    rw [if_neg (by norm_num), if_pos (by norm_num)]
    simp only [Except.ok.injEq, FaultDistanceResult.mk.injEq]
    norm_num [round2, round_eq, max_def]
  simpa using (confidence_bound_amended (1 : ℚ) 2 1500 _ h).2 rfl

/-- C5: the estimator composes to the reference double-ended formula —
the propagation speed accepted by `calculatePropagationSpeed` (with the
real square root) is `1 / sqrt((L/1000) * (C/1000))`, the time delta is the
exact integer difference divided by `10^9`, and whenever the raw distance
`0.5 * (lengthMeters + v * Δt)` lies inside `[0, lengthMeters]` the
returned distance from the start equals it exactly. -/
theorem estimator_reference_formula (lengthKm l c : ℝ) (tsA tsB : ℤ) (v dt : ℝ)
    (r : FaultDistanceResult ℝ)
    (hv : calculatePropagationSpeed Real.sqrt l c = .ok v)
    (hdt : calculateTimeDeltaSeconds ℝ (.jsBigInt tsA) (.jsBigInt tsB) = .ok dt)
    (hr : calculateFaultDistance lengthKm v dt = .ok r)
    (h0 : 0 ≤ (1 / 2) * (lengthKm * 1000 + v * dt))
    (h1 : (1 / 2) * (lengthKm * 1000 + v * dt) ≤ lengthKm * 1000) :
    v = 1 / Real.sqrt (l / 1000 * (c / 1000)) ∧
    dt = ((tsA - tsB : ℤ) : ℝ) / 1000000000 ∧
    r.distanceFromStartMeters = (1 / 2) * (lengthKm * 1000 + v * dt) := by
  refine ⟨?_, ?_, ?_⟩
  · unfold calculatePropagationSpeed at hv
    split at hv
    · cases hv
    split at hv
    · cases hv
    dsimp only at hv
    split at hv
    · cases hv
    split at hv
    · cases hv
    cases hv
    rfl
  · rw [calculateTimeDeltaSeconds_bigint] at hdt
    split at hdt
    · cases hdt
    cases hdt
    rfl
  · unfold calculateFaultDistance at hr
    split at hr
    · cases hr
    split at hr
    · cases hr
    dsimp only at hr
    split at hr
    · rename_i hneg
      exact absurd h0 (not_le.mpr hneg)
    split at hr
    · rename_i hover
      exact absurd h1 (not_le.mpr hover)
    cases hr
    rfl

/-- Witness for C5 with `lengthKm = 10 km`, `L = C = 10^-3` per km (so
`v = 10^6 m/s`) and equal timestamps (`Δt = 0`): the estimator places the
fault exactly at the 5000 m midpoint. -/
theorem estimator_reference_formula_witness :
    (1000000 : ℝ) = 1 / Real.sqrt ((1 : ℝ) / 1000 / 1000 * (1 / 1000 / 1000)) ∧
    (0 : ℝ) = ((1000 - 1000 : ℤ) : ℝ) / 1000000000 ∧
    (5000 : ℝ) = (1 / 2) * (10 * 1000 + 1000000 * 0) := by
  have hs : Real.sqrt ((1 : ℝ) / 1000 / 1000 * (1 / 1000 / 1000)) = 1 / 1000000 := by
    rw [show (1 : ℝ) / 1000 / 1000 * (1 / 1000 / 1000) = ((1 : ℝ) / 1000000) ^ 2 by ring]
    rw [Real.sqrt_sq (by norm_num)]
  have hv : calculatePropagationSpeed Real.sqrt ((1 : ℝ) / 1000) ((1 : ℝ) / 1000) =
      .ok 1000000 := by
    unfold calculatePropagationSpeed
    rw [if_neg (by norm_num), if_neg (by norm_num)]
    dsimp only
    rw [if_neg (by norm_num), hs,
      show (1 : ℝ) / (1 / 1000000) = 1000000 by norm_num, if_neg (by norm_num)]
  have hdt : calculateTimeDeltaSeconds ℝ (.jsBigInt 1000) (.jsBigInt 1000) = .ok 0 := by
    rw [calculateTimeDeltaSeconds_bigint, if_neg (by decide)]
    norm_num
  have hr : calculateFaultDistance (10 : ℝ) 1000000 0 =
      .ok { distanceFromStartMeters := 5000, distanceFromEndMeters := 5000,
            lineLengthMeters := 10000, propagationSpeed := 1000000,
            timeDeltaSeconds := 0, clamped := false, confidence := 1 } := by
    unfold calculateFaultDistance
    rw [if_neg (by norm_num), if_neg (by norm_num)]
    dsimp only
    rw [if_neg (by norm_num), if_neg (by norm_num)]
    simp only [Except.ok.injEq, FaultDistanceResult.mk.injEq]
    norm_num [round2, round_eq]
  have := estimator_reference_formula 10 (1 / 1000) (1 / 1000) 1000 1000 1000000 0 _
    hv hdt hr (by norm_num) (by norm_num)
  simpa using this

/-! ### Theorems about the orchestrator and planner -/

/-- The first match of `find?` is the head of the filtered list. -/
theorem find?_eq_head?_filter {β : Type} (p : β → Bool) (l : List β) :
    l.find? p = (l.filter p).head? := by
  induction l with
  | nil => rfl
  | cons a t ih =>
    rw [List.find?_cons, List.filter_cons]
    cases h : p a
    · exact ih
    · rfl

/-- Marking every event-log row resolved does not change the context
query's row set: the `resolved` column is consulted nowhere in it. -/
theorem faultContextRows_ignores_resolved {α : Type} (db : Database α) (faultEventId : ℤ) :
    faultContextRows
      { db with eventLog := db.eventLog.map (fun e => { e with resolved := true }) }
      faultEventId = faultContextRows db faultEventId := by
  unfold faultContextRows
  dsimp only
  rw [List.filter_map, List.flatMap_map]
  rfl

/-- Counterexample to C1 as stated: in `resolvedFaultDb` the only fault
event has `resolved = true`, yet `fetchFaultContext` succeeds and returns
its context — no `NotFoundError` is raised for an already-resolved
event. -/
theorem fetchFaultContext_accepts_resolved_event :
    resolvedFaultDb.eventLog.all (fun e => e.resolved) = true ∧
    fetchFaultContext resolvedFaultDb 1 = .ok sampleCtx :=
  ⟨rfl, rfl⟩

/-- C1 (amended): `fetchFaultContext` fails — with an error named
`NotFoundError`, surfaced as HTTP 404 by the trigger route — exactly when
the context query returns no row, i.e. when no FAULT-type event-log row
with the given id joins to a waveform and a connection.  The `resolved`
flag is not part of the filter, so an already-resolved fault event with a
waveform still loads and the workflow proceeds. -/
theorem fetchFaultContext_notFound_iff_no_rows {α : Type} (db : Database α)
    (faultEventId : ℤ) :
    (fetchFaultContext db faultEventId = .error (notFoundError faultEventId) ↔
      faultContextRows db faultEventId = []) ∧
    (notFoundError faultEventId).name = "NotFoundError" ∧
    flisrErrorStatus (notFoundError faultEventId) = 404 ∧
    fetchFaultContext
      { db with eventLog := db.eventLog.map (fun e => { e with resolved := true }) }
      faultEventId = fetchFaultContext db faultEventId := by
  refine ⟨?_, rfl, rfl, ?_⟩
  · unfold fetchFaultContext
    cases h : faultContextRows db faultEventId
    · exact iff_of_true rfl rfl
    · exact iff_of_false (fun hc => by cases hc) (fun hc => by cases hc)
  · unfold fetchFaultContext
    rw [faultContextRows_ignores_resolved]

/-- C7: for every fault context and topology the plan is non-empty and
begins with an `OPEN_SWITCH` of the faulted connection, reason "isolate
the faulted segment", carrying the fault event id and both endpoint zone
ids as metadata. -/
theorem plan_isolates_first {α : Type} (ctx : FaultContext α) (zones : List ZoneAgentRow)
    (connections : List (GridConnectionRow α)) :
    ∃ rest, (deriveRestorationPlan ctx zones connections).actions =
      { action := .OPEN_SWITCH, target_connection_id := ctx.gridConnectionId,
        reason := "isolate the faulted segment",
        metadata := some [("faultEventId", toString ctx.eventId),
          ("fromZoneId", ctx.fromZoneId), ("toZoneId", ctx.toZoneId)] } :: rest := by
  unfold deriveRestorationPlan
  cases h : connections.find? (isTieCandidate ctx)
  · exact ⟨_, rfl⟩
  · exact ⟨_, rfl⟩

/-- C8: the plan's second action closes the first connection, in list
order and excluding the faulted one, that is INACTIVE, healthy and shares
an endpoint with the fault; when no such connection exists it is instead a
`NOTIFY` on the faulted connection with an escalation metadata flag. -/
theorem plan_second_action {α : Type} (ctx : FaultContext α) (zones : List ZoneAgentRow)
    (connections : List (GridConnectionRow α)) :
    (∀ tie, (connections.filter (isTieCandidate ctx)).head? = some tie →
      (deriveRestorationPlan ctx zones connections).actions[1]? =
        some { action := .CLOSE_SWITCH, target_connection_id := tie.grid_connection_id,
               reason := "backfeed through alternate healthy path",
               metadata := some
                 [("fromZoneName",
                     (zoneNameOf zones tie.from_zone_agent_id).getD tie.from_zone_agent_id),
                  ("toZoneName",
                     (zoneNameOf zones tie.to_zone_agent_id).getD tie.to_zone_agent_id)] }) ∧
    ((connections.filter (isTieCandidate ctx)).head? = none →
      (deriveRestorationPlan ctx zones connections).actions[1]? =
        some { action := .NOTIFY, target_connection_id := ctx.gridConnectionId,
               reason := "no automated restoration path available",
               metadata := some [("escalation", "dispatch crew")] }) := by
  have hf : connections.find? (isTieCandidate ctx) =
      (connections.filter (isTieCandidate ctx)).head? :=
    find?_eq_head?_filter _ _
  constructor
  · intro tie h
    unfold deriveRestorationPlan
    rw [hf, h]
    rfl
  · intro h
    unfold deriveRestorationPlan
    rw [hf, h]
    rfl

/-- Witness for C8: on `sampleDb`'s topology the fault on `C1` picks the
adjacent INACTIVE tie `C2` (not the non-adjacent `C3`), while the fault on
`C3` — with no adjacent candidate — escalates with a `NOTIFY`. -/
theorem plan_second_action_witness :
    (sampleDb.gridConnections.filter (isTieCandidate sampleCtx)).head? = some c2row ∧
    (deriveRestorationPlan sampleCtx sampleDb.zoneAgents sampleDb.gridConnections).actions[1]? =
      some { action := .CLOSE_SWITCH, target_connection_id := c2row.grid_connection_id,
             reason := "backfeed through alternate healthy path",
             metadata := some
               [("fromZoneName",
                   (zoneNameOf sampleDb.zoneAgents c2row.from_zone_agent_id).getD
                     c2row.from_zone_agent_id),
                ("toZoneName",
                   (zoneNameOf sampleDb.zoneAgents c2row.to_zone_agent_id).getD
                     c2row.to_zone_agent_id)] } ∧
    (sampleDb.gridConnections.filter (isTieCandidate noTieCtx)).head? = none ∧
    (deriveRestorationPlan noTieCtx sampleDb.zoneAgents sampleDb.gridConnections).actions[1]? =
      some { action := .NOTIFY, target_connection_id := noTieCtx.gridConnectionId,
             reason := "no automated restoration path available",
             metadata := some [("escalation", "dispatch crew")] } := by
  refine ⟨rfl, ?_, rfl, ?_⟩
  · exact (plan_second_action sampleCtx sampleDb.zoneAgents sampleDb.gridConnections).1
      c2row rfl
  · exact (plan_second_action noTieCtx sampleDb.zoneAgents sampleDb.gridConnections).2 rfl

/-- C2: the persist phase is all-or-nothing: whenever any of its steps
fails, the database returned with the rethrown error is the pre-call
database — in particular the faulted connection's stored state and the
originating fault event's resolved flag are unchanged. -/
theorem persistOutcome_atomic {α : Type} [LinearOrderedField α] [FloorRing α]
    (env : PersistEnv) (db db2 : Database α) (ctx : FaultContext α)
    (plan : RestorationPlan) (dist : FaultDistanceResult α) (e : JSError)
    (cmds : List SwitchCommand)
    (h : persistOutcome env db ctx plan dist = (.error e, db2, cmds)) :
    db2 = db ∧
    connectionStateOf db2 ctx.gridConnectionId =
      connectionStateOf db ctx.gridConnectionId ∧
    eventResolvedFlag db2 ctx.eventId = eventResolvedFlag db ctx.eventId := by
  unfold persistOutcome at h
  dsimp only at h
  split at h
  · simp at h
  · simp only [Prod.mk.injEq, Except.error.injEq] at h
    obtain ⟨-, hdb, -⟩ := h
    subst hdb
    exact ⟨rfl, rfl, rfl⟩

/-- Witness for C2: with a command channel that always fails, the very
first publish aborts the transaction and the store is returned exactly as
it was before the call. -/
theorem persistOutcome_atomic_witness :
    persistOutcome failingPublishEnv sampleDb sampleCtx samplePlan sampleDist =
      (.error (jsError "publish failed"), sampleDb, []) ∧
    sampleDb = sampleDb ∧
    connectionStateOf sampleDb sampleCtx.gridConnectionId =
      connectionStateOf sampleDb sampleCtx.gridConnectionId ∧
    eventResolvedFlag sampleDb sampleCtx.eventId =
      eventResolvedFlag sampleDb sampleCtx.eventId := by
  have h : persistOutcome failingPublishEnv sampleDb sampleCtx samplePlan sampleDist =
      (.error (jsError "publish failed"), sampleDb, []) := rfl
  exact ⟨h, persistOutcome_atomic _ _ _ _ _ _ _ _ h⟩

/-- C9: when the context loads but an estimator step fails, the workflow
returns exactly that error — unwrapped — with the database unchanged and
no switch command dispatched: no mutation happens before the persist
phase. -/
theorem runFlisrWorkflow_no_mutation_on_calc_error {α : Type} [LinearOrderedField α]
    [FloorRing α] (sqrt : α → α) (env : PersistEnv) (db : Database α)
    (faultEventId : ℤ) (ctx : FaultContext α) (e : JSError)
    (hctx : fetchFaultContext db faultEventId = .ok ctx)
    (hcalc : computeDistancePhase sqrt ctx = .error e) :
    runFlisrWorkflow sqrt env db faultEventId = (.error e, db, []) := by
  unfold runFlisrWorkflow
  rw [hctx]
  dsimp only
  rw [hcalc]

/-- Witness for C9: with the faulted connection's inductance set to zero,
the propagation-speed step throws its invalid-parameter error and the
workflow returns it with the store untouched and no command sent. -/
theorem runFlisrWorkflow_no_mutation_witness :
    fetchFaultContext zeroInductanceDb 1 = .ok zeroInductanceCtx ∧
    computeDistancePhase (fun x => x) zeroInductanceCtx =
      .error (jsError "Inductance per km must be a positive finite number.") ∧
    runFlisrWorkflow (fun x => x) failingPublishEnv zeroInductanceDb 1 =
      (.error (jsError "Inductance per km must be a positive finite number."),
        zeroInductanceDb, []) := by
  have h1 : fetchFaultContext zeroInductanceDb 1 = .ok zeroInductanceCtx := rfl
  have h2 : computeDistancePhase (fun x => x) zeroInductanceCtx =
      .error (jsError "Inductance per km must be a positive finite number.") := rfl
  exact ⟨h1, h2,
    runFlisrWorkflow_no_mutation_on_calc_error (fun x => x) failingPublishEnv
      zeroInductanceDb 1 zeroInductanceCtx _ h1 h2⟩

end SmartGrid
